import Mathlib

/-!
Shallow embedding of the Trivia API backend (`backend/flaskr/__init__.py`).

The single source file defines a Flask app with these handlers:
`paginate_questions`, `get_categories`, `get_questions`, `delete_question`,
`create_and_search_question`, `get_question_by_category`, `get_quizzes`,
plus error handlers mapping abort codes 404/405/422/500 to JSON errors.

The SQLAlchemy models (`models.py`) are not part of the sources; the record
shapes are modelled from the spec (section 3, DATA MODEL) and from how the
handlers use them (e.g. `Question.category` is compared against
`str(category_id)`, so the stored category field is a string; every payload
field reachable from `body.get(key, None)` may be NULL/None, so those fields
are `Option`-typed).

Python-level behaviour that matters to the handlers is embedded explicitly:
- list slicing `l[start:end]` with Python's negative-index and clamping
  rules (`pySlice`);
- exceptions (`PyExc`): handler bodies run inside `try-except BaseException`
  blocks; a raised exception inside the block becomes `abort(422)` (or, in
  `get_question_by_category`, `abort(404)`), while an exception raised
  before/outside the block escapes to Flask's generic 500 handler;
- `flask.abort(n)` raises an `HTTPException`, which IS caught by an
  enclosing `except BaseException`;
- dict truthiness / `if searchTerm:` (empty string and `None` are falsy);
- `random.choice` modelled by an arbitrary index `pick` (reduced mod the
  list length), universally quantified in the theorems;
- SQLAlchemy: `Question.id.not_in(xs)` is a real column operator, while the
  spelling `not_in_` used on line 286 of the source does not exist, so that
  attribute access raises `AttributeError` at query-construction time.
-/

namespace Trivia

deriving instance DecidableEq for Except

/-- Exceptions a handler body can raise; the concrete constructor only
documents why a path raised, every `except BaseException` catches all. -/
inductive PyExc where
  | attributeError
  | keyError
  | typeError
  | multipleResultsFound
  | httpException (code : Nat)
deriving Repr, DecidableEq

/-- Modelled from the spec: a stored Question record (`models.py` is outside
the given sources). `id` is the store-assigned identifier; the remaining
columns are nullable, and `category` is stored as a string (the handlers
compare it against `str(category_id)`). -/
structure Question where
  id : Nat
  question : Option String
  answer : Option String
  difficulty : Option Nat
  category : Option String
deriving Repr, DecidableEq

/-- Modelled from the spec: a stored Category record with an identifier and
a free-text label (`type` column). -/
structure Category where
  id : Nat
  «type» : String
deriving Repr, DecidableEq

/-- Result of `Question.format()`: the JSON dictionary for one question. -/
structure QuestionF where
  id : Nat
  question : Option String
  answer : Option String
  difficulty : Option Nat
  category : Option String
deriving Repr, DecidableEq

/-- Embedding of `Question.format()`: copies the record's columns into the response dict. -/
def Question.format (q : Question) : QuestionF :=
  { id := q.id, question := q.question, answer := q.answer,
    difficulty := q.difficulty, category := q.category }

/-- State of the Question Store: the persisted questions and categories. -/
structure Store where
  questions : List Question
  categories : List Category
deriving Repr, DecidableEq

/-- Insert one question keeping the list sorted by `id` (stable). -/
def insertById (q : Question) : List Question → List Question
  | [] => [q]
  | r :: rs => if q.id ≤ r.id then q :: r :: rs else r :: insertById q rs

/-- Embedding of `Question.query.order_by(Question.id).all()`: the questions sorted by
identifier (insertion sort; the order is total and deterministic). -/
def orderById : List Question → List Question
  | [] => []
  | q :: qs => insertById q (orderById qs)

/-- Insert one category keeping the list sorted by `id` (stable). -/
def insertCatById (c : Category) : List Category → List Category
  | [] => [c]
  | d :: ds => if c.id ≤ d.id then c :: d :: ds else d :: insertCatById c ds

/-- Embedding of `Category.query.order_by(Category.id).all()`. -/
def orderCatsById : List Category → List Category
  | [] => []
  | c :: cs => insertCatById c (orderCatsById cs)

/-- Modelled from the spec: on insertion the store assigns a fresh
identifier, never equal to (here: strictly above) any existing one. -/
def freshId (s : Store) : Nat :=
  (s.questions.map Question.id).foldr max 0 + 1

/-- SQLAlchemy `one_or_none()`: `none` on no row, the row if unique, raises
`MultipleResultsFound` otherwise. -/
def one_or_none {α : Type} (l : List α) : Except PyExc (Option α) :=
  match l with
  | [] => .ok none
  | [a] => .ok (some a)
  | _ :: _ :: _ => .error .multipleResultsFound

/-- Normalise one Python slice index against a list length: negative indices
count from the end (clamped at 0), positive ones are clamped at the length. -/
def pySliceIdx (len : Nat) (i : Int) : Nat :=
  if i < 0 then ((len : Int) + i).toNat else min len i.toNat

/-- Python list slice `l[a:b]` (step 1). -/
def pySlice {α : Type} (l : List α) (a b : Int) : List α :=
  (l.take (pySliceIdx l.length b)).drop (pySliceIdx l.length a)

/-- Number of questions per page (`QUESTIONS_PER_PAGE`). -/
def QUESTIONS_PER_PAGE : Nat := 10

/-- Embedding of `paginate_questions(request, selection)`: `page` is the request's
`page` query argument parsed as an int (default 1 when absent or
non-numeric); the formatted selection is sliced as
`questions[start:end]` with `start = (page-1)*10`, `end = start+10`. -/
def paginate_questions (page : Int) (selection : List Question) : List QuestionF :=
  let start : Int := (page - 1) * (QUESTIONS_PER_PAGE : Int)
  let stop : Int := start + (QUESTIONS_PER_PAGE : Int)
  pySlice (selection.map Question.format) start stop

/-- Response payload of `GET /questions`. -/
structure QuestionsResponse where
  success : Bool
  questions : List QuestionF
  total_questions : Nat
  categories : List (Nat × String)
  current_category : Option String
deriving Repr, DecidableEq

/-- Handler `GET /questions` (`get_questions`): paginate all questions ordered by
id; abort(404) when the current page is empty (no try/except wrapping). -/
def get_questions (s : Store) (page : Int) : Except Nat QuestionsResponse :=
  let selection := orderById s.questions
  let current_questions := paginate_questions page selection
  let categories := (orderCatsById s.categories).map (fun c => (c.id, c.«type»))
  if current_questions.length = 0 then
    .error 404
  else
    .ok { success := true, questions := current_questions,
          total_questions := s.questions.length, categories := categories,
          current_category := none }

/-- Response payload of `DELETE /questions/<id>`. -/
structure DeleteResponse where
  success : Bool
  deleted : Nat
  questions : List QuestionF
  total_questions : Nat
deriving Repr, DecidableEq

/-- Body of the `try:` block of `delete_question`, also returning the
post-transaction store. Note that `abort(404)` on a missing id raises an
`HTTPException` INSIDE this block. -/
def delete_questionTry (s : Store) (page : Int) (question_id : Nat) :
    Except PyExc (DeleteResponse × Store) :=
  match one_or_none (s.questions.filter (fun q => q.id == question_id)) with
  | .error e => .error e
  | .ok none => .error (.httpException 404)
  | .ok (some _) =>
    let s' : Store := { s with questions := s.questions.filter (fun q => q.id != question_id) }
    let selection := orderById s'.questions
    let current_questions := paginate_questions page selection
    .ok ({ success := true, deleted := question_id, questions := current_questions,
           total_questions := s'.questions.length }, s')

/-- Handler `DELETE /questions/<id>` (`delete_question`): the whole body sits in
`try: ... except BaseException: abort(422)`, so every exception raised in
it — including the `abort(404)` for a missing question — surfaces as 422. -/
def delete_question (s : Store) (page : Int) (question_id : Nat) :
    Except Nat (DeleteResponse × Store) :=
  match delete_questionTry s page question_id with
  | .ok r => .ok r
  | .error _ => .error 422

/-- JSON body of `POST /questions`; each field is `body.get(key, None)`. -/
structure CSBody where
  question : Option String
  answer : Option String
  difficulty : Option Nat
  category : Option String
  searchTerm : Option String
deriving Repr, DecidableEq

/-- Python truthiness of an optional string: `None` and `""` are falsy. -/
def truthy : Option String → Bool
  | none => false
  | some t => t ≠ ""

/-- Contiguous-subsequence test on character lists: `needle` occurs inside
`hay`. -/
def containsSeq (needle : List Char) : List Char → Bool
  | [] => needle.isEmpty
  | c :: t => needle.isPrefixOf (c :: t) || containsSeq needle t

/-- Embedding of `Question.question.ilike("%term%")`: case-insensitive substring match;
a NULL question text matches nothing. -/
def ilikeMatch (text : Option String) (term : String) : Bool :=
  match text with
  | none => false
  | some h => containsSeq (term.data.map Char.toLower) (h.data.map Char.toLower)

/-- Two response shapes of `POST /questions`: the search branch (no
`created` key) and the creation branch (with the new id). -/
inductive CSResult where
  | searched (questions : List QuestionF) (total_questions : Nat)
  | created (created : Nat) (questions : List QuestionF) (total_questions : Nat)
deriving Repr, DecidableEq

/-- Body of the `try:` block of `create_and_search_question`, given the
already-extracted fields; also returns the post-transaction store. In this
pure model neither the search query nor the insert can fail, so the
`except`-to-422 path of this handler is unreachable here. -/
def create_and_searchTry (s : Store) (page : Int) (b : CSBody) :
    Except PyExc (CSResult × Store) :=
  if truthy b.searchTerm then
    let term := b.searchTerm.getD ""
    let selection := (orderById s.questions).filter (fun q => ilikeMatch q.question term)
    let current_questions := paginate_questions page selection
    .ok (.searched current_questions selection.length, s)
  else
    let q : Question := { id := freshId s, question := b.question, answer := b.answer,
                          difficulty := b.difficulty, category := b.category }
    let s' : Store := { s with questions := s.questions ++ [q] }
    let selection := orderById s'.questions
    let current_questions := paginate_questions page selection
    .ok (.created q.id current_questions s'.questions.length, s')

/-- Handler `POST /questions` (`create_and_search_question`): `body =
request.get_json()` and the five `body.get(...)` field reads happen BEFORE
the `try:` block, so when the parsed body is `None` the attribute access
`None.get` raises an uncaught `AttributeError`, which Flask's generic
handler reports as 500; exceptions inside the `try:` block become 422. -/
def create_and_search_question (s : Store) (page : Int) (body : Option CSBody) :
    Except Nat (CSResult × Store) :=
  match body with
  | none => .error 500
  | some b =>
    match create_and_searchTry s page b with
    | .ok r => .ok r
    | .error _ => .error 422

/-- Response payload of `GET /categories/<id>/questions`. -/
structure CatQuestionsResponse where
  success : Bool
  questions : List QuestionF
  total_questions : Nat
  current_category : String
deriving Repr, DecidableEq

/-- Handler `GET /categories/<id>/questions` (`get_question_by_category`): the
category lookup and its `abort(404)` happen before the `try:` block; the
block itself filters questions by `Question.category == str(category_id)`,
paginates, and returns success — with no emptiness check on the page. In
this pure model nothing inside the block raises, so its `except`-to-404
path is unreachable here. -/
def get_question_by_category (s : Store) (page : Int) (category_id : Nat) :
    Except Nat CatQuestionsResponse :=
  match one_or_none (s.categories.filter (fun c => c.id == category_id)) with
  | .error _ => .error 500
  | .ok none => .error 404
  | .ok (some category) =>
    let selection := s.questions.filter (fun q => q.category == some (toString category_id))
    let current_questions := paginate_questions page selection
    .ok { success := true, questions := current_questions,
          total_questions := selection.length,
          current_category := category.«type» }

/-- Value of the `quiz_category` key of a quiz request: a JSON object whose
`id` and `type` keys may each be absent (`idKey`/`typeKey` model the
subscripts `category['id']` and `category['type']`, which raise `KeyError`
when the key is missing). -/
structure QuizCat where
  idKey : Option Nat
  typeKey : Option String
deriving Repr, DecidableEq

/-- JSON body of `POST /quizzes`; both fields are `body.get(key, None)`. -/
structure QuizBody where
  previous_questions : Option (List Nat)
  quiz_category : Option QuizCat
deriving Repr, DecidableEq

/-- Response payload of `POST /quizzes`. -/
structure QuizResponse where
  success : Bool
  question : Option QuestionF
  current_category : String
deriving Repr, DecidableEq

/-- Embedding of `random.choice(l)` for non-empty `l`: an arbitrary element, modelled by
an external index `pick` taken mod the length (every element is reached by
some `pick`); `none` exactly when the guard `if (fresh_quizzes):` fails. -/
def pyRandomChoice (l : List Question) (pick : Nat) : Option Question :=
  match l with
  | [] => none
  | q :: qs => some ((q :: qs).getD (pick % (q :: qs).length) q)

/-- Body of the `try:` block of `get_quizzes`. Order of effects follows the
source: `body.get` (raises `AttributeError` when the body is `None`), then
`category['id']` (`TypeError` on `None`, `KeyError` on a missing key), then
`len(previous_questions)` (`TypeError` on `None`), then the four-way branch
on (selector, previous empty?), then `category['type']` in the response.
The third branch spells the column operator `Question.id.not_in_(...)`
(source line 286); SQLAlchemy has `in_`/`not_in`/`notin_` but no `not_in_`,
so that attribute access raises `AttributeError` before any row is read. -/
def get_quizzesTry (s : Store) (pick : Nat) (body : Option QuizBody) :
    Except PyExc QuizResponse :=
  match body with
  | none => .error .attributeError
  | some b =>
    match b.quiz_category with
    | none => .error .typeError
    | some category =>
      match category.idKey with
      | none => .error .keyError
      | some cid =>
        match b.previous_questions with
        | none => .error .typeError
        | some previous_questions =>
          let freshRes : Except PyExc (List Question) :=
            if cid = 0 ∧ previous_questions.length = 0 then
              .ok (orderById s.questions)
            else if previous_questions.length = 0 then
              .ok (s.questions.filter (fun q => q.category == some (toString cid)))
            else if cid = 0 then
              .error .attributeError
            else
              .ok (s.questions.filter (fun q =>
                q.category == some (toString cid) && !(previous_questions.contains q.id)))
          match freshRes with
          | .error e => .error e
          | .ok fresh_quizzes =>
            let current_question := (pyRandomChoice fresh_quizzes pick).map Question.format
            match category.typeKey with
            | none => .error .keyError
            | some ctype =>
              .ok { success := true, question := current_question,
                    current_category := ctype }

/-- Handler `POST /quizzes` (`get_quizzes`): the whole body, the JSON parsing and
field reads included, sits in `try: ... except BaseException: abort(422)`,
so every exception surfaces as 422. -/
def get_quizzes (s : Store) (pick : Nat) (body : Option QuizBody) :
    Except Nat QuizResponse :=
  match get_quizzesTry s pick body with
  | .ok r => .ok r
  | .error _ => .error 422

/-! Concrete fixture data used by witnesses and counterexamples. -/

/-- Fixture: a geography question (id 1, category "3"). -/
def qGeo : Question :=
  { id := 1, question := some "What is the largest lake in Africa?",
    answer := some "Lake Victoria", difficulty := some 2, category := some "3" }

/-- Fixture: a history question (id 2, category "4"). -/
def qHis : Question :=
  { id := 2, question := some "Whose autobiography is entitled I Know Why the Caged Bird Sings?",
    answer := some "Maya Angelou", difficulty := some 2, category := some "4" }

/-- Fixture: a store holding two questions in two categories. -/
def storeA : Store :=
  { questions := [qHis, qGeo],
    categories := [⟨3, "Geography"⟩, ⟨4, "History"⟩] }

/-- Fixture: the n-th science question, stored in category "1". -/
def sciQ (n : Nat) : Question :=
  { id := n, question := some ("Science question " ++ toString n),
    answer := some "42", difficulty := some 1, category := some "1" }

/-- Fixture: a store whose category 1 is labeled "Science" and whose 12
questions all live in category 1 (the spec's section 8 scenario). -/
def store8 : Store :=
  { questions := (List.range 12).map (fun n => sciQ (n + 1)),
    categories := [⟨1, "Science"⟩] }

/-- Fixture: a store with the "Science" category but no questions at all. -/
def storeB : Store :=
  { questions := [], categories := [⟨1, "Science"⟩] }

/-- Fixture: a store holding exactly one question, id 1. -/
def storeC : Store :=
  { questions := [sciQ 1], categories := [⟨1, "Science"⟩] }

/-! Helper lemmas. -/

theorem mem_insertById {x q : Question} {l : List Question} :
    x ∈ insertById q l ↔ x = q ∨ x ∈ l := by
  induction l with
  | nil => simp [insertById]
  | cons r rs ih =>
    by_cases h : q.id ≤ r.id
    · simp [insertById, h]
    · simp [insertById, h, ih]
      tauto

theorem mem_orderById {x : Question} {l : List Question} :
    x ∈ orderById l ↔ x ∈ l := by
  induction l with
  | nil => simp [orderById]
  | cons q qs ih => simp [orderById, mem_insertById, ih]

theorem getD_mem {l : List Question} {n : Nat} {d : Question} (hd : d ∈ l) :
    l.getD n d ∈ l := by
  rw [List.getD_eq_getElem?_getD]
  cases h : l[n]? with
  | none => simpa using hd
  | some x => simpa using List.getElem?_mem h

theorem pyRandomChoice_mem {l : List Question} {pick : Nat} {q : Question}
    (h : pyRandomChoice l pick = some q) : q ∈ l := by
  cases l with
  | nil => simp [pyRandomChoice] at h
  | cons a as =>
    simp only [pyRandomChoice, Option.some.injEq] at h
    rw [← h]
    exact getD_mem (List.mem_cons_self a as)

theorem take_min {α : Type} (l : List α) (n : Nat) :
    l.take (min l.length n) = l.take n := by
  rcases le_or_lt n l.length with h | h
  · rw [min_eq_right h]
  · rw [min_eq_left h.le, List.take_of_length_le h.le, List.take_of_length_le (le_refl _)]

theorem pySlice_ofNat {α : Type} (l : List α) (a b : Nat) :
    pySlice l (a : Int) (b : Int) = (l.take b).drop a := by
  have ha : ¬ ((a : Int) < 0) := by omega
  have hb : ¬ ((b : Int) < 0) := by omega
  simp only [pySlice, pySliceIdx, if_neg ha, if_neg hb, Int.toNat_natCast, take_min]
  rcases le_or_lt a l.length with h | h
  · rw [min_eq_right h]
  · rw [min_eq_left h.le, List.drop_eq_nil_of_le, List.drop_eq_nil_of_le]
    · calc (l.take b).length = min b l.length := List.length_take b l
        _ ≤ l.length := min_le_right _ _
        _ ≤ a := h.le
    · calc (l.take b).length = min b l.length := List.length_take b l
        _ ≤ l.length := min_le_right _ _

theorem paginate_eq_of_pos (selection : List Question) (P : Nat) (h : 1 ≤ P) :
    paginate_questions (P : Int) selection =
      ((selection.map Question.format).take ((P - 1) * 10 + 10)).drop ((P - 1) * 10) := by
  have h1 : ((P : Int) - 1) * (QUESTIONS_PER_PAGE : Nat) = (((P - 1) * 10 : Nat) : Int) := by
    simp only [QUESTIONS_PER_PAGE]
    omega
  have h2 : (((P - 1) * 10 : Nat) : Int) + (QUESTIONS_PER_PAGE : Nat) =
      (((P - 1) * 10 + 10 : Nat) : Int) := by
    simp only [QUESTIONS_PER_PAGE]
    omega
  have hdef : paginate_questions (P : Int) selection =
      pySlice (selection.map Question.format)
        (((P : Int) - 1) * (QUESTIONS_PER_PAGE : Nat))
        (((P : Int) - 1) * (QUESTIONS_PER_PAGE : Nat) + (QUESTIONS_PER_PAGE : Nat)) := rfl
  rw [hdef, h1, h2, pySlice_ofNat]

theorem get_quizzes_of_err (s : Store) (pick : Nat) (body : Option QuizBody) (e : PyExc)
    (h : get_quizzesTry s pick body = .error e) :
    get_quizzes s pick body = .error 422 := by
  simp [get_quizzes, h]

theorem get_quizzesTry_ok_of_ok {s : Store} {pick : Nat} {body : Option QuizBody}
    {resp : QuizResponse} (h : get_quizzes s pick body = .ok resp) :
    get_quizzesTry s pick body = .ok resp := by
  unfold get_quizzes at h
  cases htry : get_quizzesTry s pick body with
  | ok r => rw [htry] at h; simpa using h
  | error e => rw [htry] at h; simp at h

theorem quizTry_allCat_prevNonEmpty (s : Store) (pick : Nat) (prev : List Nat)
    (tk : Option String) (hne : prev ≠ []) :
    get_quizzesTry s pick (some ⟨some prev, some ⟨some 0, tk⟩⟩) =
      .error .attributeError := by
  have hp : ¬ (prev.length = 0) := fun h => hne (List.length_eq_zero.mp h)
  simp only [get_quizzesTry]
  rw [if_neg (fun h => hp h.2), if_neg hp, if_pos trivial]

theorem quizTry_catBranch_noType (s : Store) (pick : Nat) (prev : List Nat) (cid : Nat)
    (hne : prev ≠ []) (hc : cid ≠ 0) :
    get_quizzesTry s pick (some ⟨some prev, some ⟨some cid, none⟩⟩) =
      .error .keyError := by
  have hp : ¬ (prev.length = 0) := fun h => hne (List.length_eq_zero.mp h)
  simp only [get_quizzesTry]
  rw [if_neg (fun h => hc h.1), if_neg hp, if_neg hc]

theorem quizTry_catBranch (s : Store) (pick : Nat) (prev : List Nat) (cid : Nat) (t : String)
    (hne : prev ≠ []) (hc : cid ≠ 0) :
    get_quizzesTry s pick (some ⟨some prev, some ⟨some cid, some t⟩⟩) =
      .ok { success := true,
            question := (pyRandomChoice (s.questions.filter (fun q =>
                q.category == some (toString cid) && !(prev.contains q.id))) pick).map
              Question.format,
            current_category := t } := by
  have hp : ¬ (prev.length = 0) := fun h => hne (List.length_eq_zero.mp h)
  simp only [get_quizzesTry]
  rw [if_neg (fun h => hc h.1), if_neg hp, if_neg hc]

/-! Claims. -/

/-- C1 (code bug): a quiz draw with the "all categories" sentinel (id 0) and a
non-empty previous_questions list does NOT succeed: the third branch of
`get_quizzes` spells the column operator `not_in_` (which SQLAlchemy does not
define), so the attribute access raises and the request is answered with the
"unprocessable" 422 error instead of drawing from all questions minus the
previously asked ones. -/
theorem claim_C1 (s : Store) (pick : Nat) (prev : List Nat) (tk : Option String)
    (hne : prev ≠ []) :
    get_quizzes s pick (some ⟨some prev, some ⟨some 0, tk⟩⟩) = .error 422 :=
  get_quizzes_of_err _ _ _ _ (quizTry_allCat_prevNonEmpty s pick prev tk hne)

/-- C1 witness: the concrete request (previous_questions = [1], category id 0)
against the two-question fixture store is answered 422. -/
theorem claim_C1_witness :
    ([1] ≠ ([] : List Nat)) ∧
    get_quizzes storeA 0 (some ⟨some [1], some ⟨some 0, some "click"⟩⟩) = .error 422 :=
  ⟨by decide, claim_C1 storeA 0 [1] (some "click") (by decide)⟩

/-- C3 (code bug): a quiz draw whose eligible set is empty is NOT always a
success with a null question: in the store holding only question 1, with
previous_questions = [1] and the "all categories" selector, the eligible set
(all questions minus the previously asked) is empty, yet the request is
answered with the 422 error — the `not_in_` slip of the third branch fires
before the exhaustion signal can be produced. -/
theorem claim_C3 :
    storeC.questions.filter (fun q => !([1].contains q.id)) = [] ∧
    get_quizzes storeC 7 (some ⟨some [1], some ⟨some 0, some "click"⟩⟩) = .error 422 := by
  decide

/-- C4: for every sequence and page number P ≥ 1, `paginate_questions` returns
exactly the formatted slice S[(P-1)*10 : (P-1)*10+10] clipped to the sequence
bounds, and when (P-1)*10 ≥ N the result is the empty slice (the function is
total — no error is possible). -/
theorem claim_C4 (selection : List Question) (P : Nat) (h : 1 ≤ P) :
    paginate_questions (P : Int) selection =
      ((selection.map Question.format).take ((P - 1) * 10 + 10)).drop ((P - 1) * 10) ∧
    (selection.length ≤ (P - 1) * 10 → paginate_questions (P : Int) selection = []) := by
  refine ⟨paginate_eq_of_pos selection P h, fun hlen => ?_⟩
  rw [paginate_eq_of_pos selection P h]
  apply List.drop_eq_nil_of_le
  calc ((selection.map Question.format).take ((P - 1) * 10 + 10)).length
      = min ((P - 1) * 10 + 10) (selection.map Question.format).length :=
        List.length_take _ _
    _ ≤ (selection.map Question.format).length := min_le_right _ _
    _ = selection.length := List.length_map _ _
    _ ≤ (P - 1) * 10 := hlen

/-- C4 witness: page 2 of the 12-question fixture store is rows 10-19 of the
formatted sequence (here: the last two questions). -/
theorem claim_C4_witness :
    1 ≤ 2 ∧
    (paginate_questions ((2 : Nat) : Int) store8.questions =
      ((store8.questions.map Question.format).take ((2 - 1) * 10 + 10)).drop ((2 - 1) * 10) ∧
    (store8.questions.length ≤ (2 - 1) * 10 →
      paginate_questions ((2 : Nat) : Int) store8.questions = [])) :=
  ⟨by decide, claim_C4 store8.questions 2 (by decide)⟩

/-- C9: with page number 0 the computed offsets are start = -10 and end = 0;
the Python slice [-10:0] of any list is empty, so a P=0 request always yields
an empty page, never a wrapped-around tail, and hence `GET /questions` at
page 0 is answered 404 for every store. -/
theorem claim_C9 :
    (∀ lf : List QuestionF, pySlice lf (-10) 0 = []) ∧
    (∀ selection : List Question, paginate_questions 0 selection = []) ∧
    (∀ s : Store, get_questions s 0 = .error 404) := by
  have hslice : ∀ lf : List QuestionF, pySlice lf (-10) 0 = [] := by
    intro lf
    simp [pySlice, pySliceIdx]
  have hpag : ∀ selection : List Question, paginate_questions 0 selection = [] := by
    intro selection
    have hdef : paginate_questions 0 selection =
        pySlice (selection.map Question.format) (-10) 0 := by
      norm_num [paginate_questions, QUESTIONS_PER_PAGE]
    rw [hdef]
    exact hslice _
  refine ⟨hslice, hpag, fun s => ?_⟩
  unfold get_questions
  simp [hpag]

/-- C10: a POST to the combined create/search operation whose parsed body is
None fails at the field extraction, which happens before the handler's
try-block; the AttributeError escapes to Flask's generic handler and is
reported as 500 ("internal"), never as 422 ("unprocessable"). -/
theorem claim_C10 :
    ∀ (s : Store) (page : Int),
      create_and_search_question s page none = .error 500 ∧
      create_and_search_question s page none ≠ .error 422 := by
  intro s page
  exact ⟨rfl, by simp [create_and_search_question]⟩

/-- C6 (code bug): deleting an identifier for which no question exists is NOT
answered "not found": the handler's own abort(404) is raised inside the
try-block and swallowed by `except BaseException`, which converts it to the
422 "unprocessable" error, erasing the contract's distinction between
"nothing to delete" and "delete attempted but failed". -/
theorem claim_C6 (s : Store) (page : Int) (question_id : Nat)
    (habs : s.questions.filter (fun q => q.id == question_id) = []) :
    delete_question s page question_id = .error 422 := by
  unfold delete_question delete_questionTry
  rw [habs]
  rfl

/-- C6 witness: deleting id 999 from the two-question fixture store answers
422 (the spec's deletion contract demands 404 here). -/
theorem claim_C6_witness :
    (storeA.questions.filter (fun q => q.id == 999) = []) ∧
    delete_question storeA 1 999 = .error 422 :=
  ⟨by decide, claim_C6 storeA 1 999 (by decide)⟩

/-- Fixture: a create/search request body carrying a present-but-empty search
term together with a full set of creation fields. -/
def csBodyEmptyTerm : CSBody :=
  { question := some "Q", answer := some "A", difficulty := some 1,
    category := some "1", searchTerm := some "" }

/-- Fixture: the question record the store creates for `csBodyEmptyTerm` on
top of `storeA` (fresh id 3). -/
def qNew : Question :=
  { id := 3, question := some "Q", answer := some "A", difficulty := some 1,
    category := some "1" }

/-- C5 counterexample: a request whose search term is present but empty does
NOT perform a search matching every question — `if searchTerm:` is falsy on
the empty string, so the handler runs the creation branch: the response is a
`created` payload and the store gains a new question record. -/
theorem claim_C5_cex :
    create_and_search_question storeA 1 (some csBodyEmptyTerm) =
      .ok (.created 3 [qGeo.format, qHis.format, qNew.format] 3,
           { questions := [qHis, qGeo, qNew], categories := storeA.categories }) := by
  decide

/-- C5 amended: a present-but-empty search term is falsy, so the request
routes to creation mode, behaving exactly as if the search term were absent;
only a non-empty term triggers search mode. -/
theorem claim_C5_amended (s : Store) (page : Int) (b : CSBody)
    (h : b.searchTerm = some "") :
    create_and_search_question s page (some b) =
      create_and_search_question s page (some { b with searchTerm := none }) := by
  obtain ⟨q, a, d, c, st⟩ := b
  simp only at h
  subst h
  rfl

/-- C5 amended witness: concretely, the empty-term body and its term-less
variant produce identical results on the fixture store. -/
theorem claim_C5_amended_witness :
    (csBodyEmptyTerm.searchTerm = some "") ∧
    create_and_search_question storeA 1 (some csBodyEmptyTerm) =
      create_and_search_question storeA 1 (some { csBodyEmptyTerm with searchTerm := none }) :=
  ⟨rfl, claim_C5_amended storeA 1 csBodyEmptyTerm rfl⟩

/-- C7 counterexample: a category-scoped listing whose paginated page is
empty does NOT signal "not found": for the store whose category 1 ("Science")
exists but holds no questions, the handler returns a successful response with
an empty questions page (the 404 in this handler fires only for a missing
category, and its except-branch never sees an empty page). -/
theorem claim_C7_cex :
    get_question_by_category storeB 1 1 =
      .ok { success := true, questions := [], total_questions := 0,
            current_category := "Science" } := by
  decide

/-- C7 amended: the empty-page "not found" policy applies to the list-all
operation only: `GET /questions` answers 404 whenever the paginated page is
empty (even with a non-zero total), while a category-scoped listing whose
category exists returns a successful (possibly empty) result, and a search
request likewise returns a normal successful result on an empty page. -/
theorem claim_C7_amended (s : Store) (page : Int) (cid : Nat) (c : Category) (t : String)
    (hc : s.categories.filter (fun x => x.id == cid) = [c])
    (ht : t ≠ "") :
    ((paginate_questions page (orderById s.questions)).length = 0 →
        get_questions s page = .error 404) ∧
    (∃ r, get_question_by_category s page cid = .ok r) ∧
    (∃ qs n, create_and_search_question s page
        (some { question := none, answer := none, difficulty := none,
                category := none, searchTerm := some t }) = .ok (.searched qs n, s)) := by
  refine ⟨fun hlen => ?_, ?_, ?_⟩
  · unfold get_questions
    simp [hlen]
  · unfold get_question_by_category
    rw [hc]
    exact ⟨_, rfl⟩
  · unfold create_and_search_question create_and_searchTry
    simp [truthy, ht]

/-- C7 amended witness: in the store with the question-less "Science"
category, the category-scoped listing succeeds (page empty), and the search
for "a" succeeds as well. -/
theorem claim_C7_amended_witness :
    (storeB.categories.filter (fun x => x.id == 1) = [⟨1, "Science"⟩]) ∧
    ("a" ≠ "") ∧
    (∃ r, get_question_by_category storeB 1 1 = .ok r) :=
  ⟨by decide, by decide,
    (claim_C7_amended storeB 1 1 ⟨1, "Science"⟩ "a" (by decide) (by decide)).2.1⟩

/-- C2: whenever a quiz draw returns a question, that question's id is not a
member of the previous_questions list supplied in the request — under the
"all categories" selector as well as a specific category selector (a branch
with a non-empty exclusion list either filters on `not_in` or fails before
any question can be returned). -/
theorem claim_C2 (s : Store) (pick : Nat) (prev : List Nat) (cat : QuizCat)
    (resp : QuizResponse) (qf : QuestionF)
    (hok : get_quizzes s pick (some ⟨some prev, some cat⟩) = .ok resp)
    (hq : resp.question = some qf) :
    qf.id ∉ prev := by
  have htry := get_quizzesTry_ok_of_ok hok
  obtain ⟨ik, tk⟩ := cat
  by_cases hp : prev = []
  · subst hp
    simp
  · cases ik with
    | none => simp [get_quizzesTry] at htry
    | some cid =>
      by_cases hc : cid = 0
      · subst hc
        rw [quizTry_allCat_prevNonEmpty s pick prev tk hp] at htry
        simp at htry
      · cases tk with
        | none =>
          rw [quizTry_catBranch_noType s pick prev cid hp hc] at htry
          simp at htry
        | some t =>
          rw [quizTry_catBranch s pick prev cid t hp hc] at htry
          injection htry with h2
          subst h2
          rcases Option.map_eq_some'.mp hq with ⟨q, hchoice, hqf⟩
          have hmem := pyRandomChoice_mem hchoice
          have hpred := List.of_mem_filter hmem
          rw [Bool.and_eq_true] at hpred
          have hnc : prev.contains q.id = false := by
            have h3 := hpred.2
            rwa [Bool.not_eq_true'] at h3
          have hnotmem : q.id ∉ prev := by simpa using hnc
          rw [← hqf]
          simpa [Question.format] using hnotmem

/-- C2 witness: drawing against the fixture store with category 4 and
previous_questions = [1] returns the id-2 history question, whose id is
indeed not among the previously asked. -/
theorem claim_C2_witness :
    (get_quizzes storeA 0 (some ⟨some [1], some ⟨some 4, some "History"⟩⟩) =
      .ok { success := true, question := some qHis.format,
            current_category := "History" }) ∧
    qHis.format.id ∉ [1] :=
  ⟨by decide,
    claim_C2 storeA 0 [1] ⟨some 4, some "History"⟩
      { success := true, question := some qHis.format, current_category := "History" }
      qHis.format (by decide) rfl⟩

/-- Fixture: the request category object with id 1 and label "Science". -/
def quizCatSci : QuizCat := { idKey := some 1, typeKey := some "Science" }

/-- Fixture: the ids 1..12 of all questions of `store8`. -/
def allSciIds : List Nat := (List.range 12).map (· + 1)

/-- C8 counterexample: against the 12-question "Science" store, the draw
request carrying literally quiz_category = {id: 1} (no `type` key) and
previous_questions = [] is answered 422 instead of returning a question: the
handler builds its response from `category['type']`, a KeyError for this
body, swallowed into abort(422). -/
theorem claim_C8_cex :
    get_quizzes store8 0 (some ⟨some [], some ⟨some 1, none⟩⟩) = .error 422 := by
  decide

/-- C8 amended: with the request's quiz_category carrying both id 1 and type
"Science" (as the client sends), every draw with previous_questions = []
returns some question with category 1, and the draw with all 12 ids in
previous_questions succeeds with a null question and current_category
"Science" — that label being echoed from the request's `type` field, which
here coincides with the store's label. -/
theorem claim_C8_amended (pick : Nat) :
    (∃ qf : QuestionF,
        get_quizzes store8 pick (some ⟨some [], some quizCatSci⟩) =
          .ok { success := true, question := some qf,
                current_category := "Science" } ∧
        qf.category = some "1") ∧
    get_quizzes store8 pick (some ⟨some allSciIds, some quizCatSci⟩) =
      .ok { success := true, question := none, current_category := "Science" } := by
  constructor
  · refine ⟨(store8.questions.getD (pick % 12) (sciQ 1)).format, ?_, ?_⟩
    · rfl
    · have hmem : store8.questions.getD (pick % 12) (sciQ 1) ∈ store8.questions :=
        getD_mem (by decide)
      have hall : ∀ x ∈ store8.questions, x.category = some "1" := by decide
      simpa [Question.format] using hall _ hmem
  · rfl
